import Mathlib

/-!
Shallow embedding of the node-discovery core of `iroh-net`
(`src/iroh-net/src/discovery.rs`): the `Discovery` capability, the
`ConcurrentDiscovery` aggregator, the needs-discovery predicate and the
`DiscoveryTask` lifecycle, together with theorems settling the claims
about them.

Modelling conventions:
- streams (`BoxStream<Result<DiscoveryItem>>`) are finite lists of
  `Except String DiscoveryItem` items;
- the fair merge of `futures_buffered::Merge` is modelled by round-robin
  interleaving (`List.transpose` followed by `List.join`), one legitimate
  arrival order;
- the one-shot first-result channel is modelled by the list of values the
  task sends on it (`sends`); the address book by the list of inserted
  `NodeAddr` values (`book`);
- cancellation (`ep.cancelled()`) truncates the consumed stream to a
  prefix, so theorems quantified over all item lists cover it;
- durations are naturals counting nanoseconds.
-/

/-- Modelled from the spec: `NodeId` lives in iroh-base, outside `src/`;
it is an opaque fixed-width identifier, modelled as a natural number. -/
abbrev NodeId := Nat

/-- Modelled from the spec: `NodeId` is "printable in a short form for logs"
(`fmt_short`, defined in iroh-base); with ids modelled as naturals the short
form is the decimal rendering. -/
def NodeId.fmt_short (n : NodeId) : String := toString n

/-- Modelled from the spec: the full `Display` rendering of a `NodeId`. -/
def NodeId.display (n : NodeId) : String := toString n

/-- Modelled from the spec: `AddrInfo` lives in iroh-net outside this file;
an optional relay URL plus an ordered set of direct transport addresses
(addresses modelled as opaque strings). -/
structure AddrInfo where
  relay_url : Option String
  direct_addresses : List String
deriving DecidableEq

/-- Modelled from the spec: `AddrInfo` is "Empty iff both fields are
empty/absent" (the emptiness test lives outside `src/`). -/
def AddrInfo.is_empty (a : AddrInfo) : Bool :=
  a.relay_url.isNone && a.direct_addresses.isEmpty

/-- The results returned from `Discovery::resolve` (discovery.rs lines 50-62). -/
structure DiscoveryItem where
  provenance : String
  last_updated : Option Nat
  addr_info : AddrInfo
deriving DecidableEq

/-- Pair of a `NodeId` and an `AddrInfo`, handed to the address book. -/
structure NodeAddr where
  node_id : NodeId
  info : AddrInfo
deriving DecidableEq

/-- Durations as naturals counting nanoseconds. -/
abbrev Duration := Nat

/-- Rust `Duration::from_secs`. -/
def Duration.from_secs (s : Nat) : Duration := s * 1000000000

/-- Maximum duration since the last control or data message received from an
endpoint to make us start a discovery task (discovery.rs line 123). -/
def MAX_AGE : Duration := Duration.from_secs 10

/-- One item of a resolve stream: `Result<DiscoveryItem>`. -/
abbrev RItem := Except String DiscoveryItem

/-- A discovery provider, as seen by the task: `resolve` returns `none` when
the provider declines to resolve the id, otherwise the stream of items.
(The `publish` side is modelled separately, by the trace of publish calls.) -/
structure Provider where
  resolve : NodeId → Option (List RItem)

/-- Per-peer liveness telemetry consumed by the needs-discovery predicate
(the `connection_info` interface of the endpoint). -/
structure ConnectionInfo where
  last_received : Option Duration
  last_alive_relay : Option Duration
deriving DecidableEq

/-- The slice of `MagicEndpoint` the discovery core consumes: the local id,
the configured top-level provider, and per-peer telemetry. -/
structure MagicEndpoint where
  node_id : NodeId
  discovery : Option Provider
  connection_info : NodeId → Option ConnectionInfo

/-- Round-robin interleaving of a list of streams: first items of every
stream, then second items, and so on, skipping exhausted streams. This is
one legitimate arrival order of `futures_buffered::Merge`. -/
def mergeStreams (ls : List (List α)) : List α :=
  (List.transpose ls).flatten

/-- `ConcurrentDiscovery::resolve` (discovery.rs lines 106-118): resolve on
every child, drop the children that decline (`filter_map`), merge the
remaining streams, and return `Some` of the merge unconditionally. -/
def ConcurrentDiscovery.resolve (services : List Provider) (nid : NodeId) :
    Option (List RItem) :=
  some (mergeStreams (services.filterMap (fun s => s.resolve nid)))

/-- The aggregator is itself a provider. -/
def ConcurrentDiscovery.toProvider (services : List Provider) : Provider :=
  { resolve := ConcurrentDiscovery.resolve services }

/-- One recorded call of a child's `publish`: the child's position in the
registration order and the `AddrInfo` it received. -/
structure PublishCall where
  child : Nat
  info : AddrInfo
deriving DecidableEq

/-- The `for service in &self.services { service.publish(info) }` loop of
`ConcurrentDiscovery::publish` (discovery.rs lines 100-104), recording one
`PublishCall` per child as the loop reaches it. -/
def publishFrom (info : AddrInfo) : Nat → List Provider → List PublishCall
  | _, [] => []
  | i, _ :: rest => { child := i, info := info } :: publishFrom info (i + 1) rest

/-- `ConcurrentDiscovery::publish`: the trace of child publish calls the
loop performs, starting from the first registered child. -/
def ConcurrentDiscovery.publish (services : List Provider) (info : AddrInfo) :
    List PublishCall :=
  publishFrom info 0 services

/-- Decidable equality of `Except` values, componentwise. -/
instance [DecidableEq ε] [DecidableEq α] : DecidableEq (Except ε α) := fun a b =>
  match a, b with
  | Except.error e1, Except.error e2 =>
    if h : e1 = e2 then isTrue (by rw [h])
    else isFalse (fun hc => by cases hc; exact h rfl)
  | Except.ok x, Except.ok y =>
    if h : x = y then isTrue (by rw [h])
    else isFalse (fun hc => by cases hc; exact h rfl)
  | Except.error _, Except.ok _ => isFalse (fun hc => by cases hc)
  | Except.ok _, Except.error _ => isFalse (fun hc => by cases hc)

/-- A value sent on the one-shot first-result channel: `Result<()>`. -/
abbrev Send := Except String Unit

/-- The error built at the end of `DiscoveryTask::run` when no result was
delivered (discovery.rs line 271). -/
def noResultsMsg (nid : NodeId) : String :=
  "Discovery produced no results for " ++ NodeId.fmt_short nid

/-- Sends performed by the exit code of `DiscoveryTask::run` (lines 270-273):
if the producer half is still held, send the no-results error. -/
def exitSends (nid : NodeId) (tx : Bool) : List Send :=
  if tx then [Except.error (noResultsMsg nid)] else []

/-- Observable output of the run loop: the values sent on the first-result
channel, in order, and the address-book insertions, in order. -/
structure RunOut where
  sends : List Send
  book : List NodeAddr
deriving DecidableEq

/-- The main loop of `DiscoveryTask::run` (discovery.rs lines 242-273) over
the merged stream, with `tx` recording whether the producer half of the
first-result channel is still held (`on_first_tx.is_some()`):
an `Ok` item with empty `addr_info` is skipped; an `Ok` item with non-empty
`addr_info` is inserted into the address book and, if the channel is still
held, resolves it with success; an `Err` item or the end of the stream
breaks the loop, after which the exit code runs. -/
def runLoop (nid : NodeId) : List RItem → Bool → RunOut
  | [], tx => { sends := exitSends nid tx, book := [] }
  | Except.error _ :: _, tx => { sends := exitSends nid tx, book := [] }
  | Except.ok r :: rest, tx =>
    if r.addr_info.is_empty then
      runLoop nid rest tx
    else
      let out := runLoop nid rest false
      { sends := (if tx then [Except.ok ()] else []) ++ out.sends,
        book := { node_id := nid, info := r.addr_info } :: out.book }

/-- `DiscoveryTask::create_stream` (discovery.rs lines 198-209): error when
no provider is configured, error when the provider declines the id,
otherwise the provider's stream. -/
def DiscoveryTask.create_stream (ep : MagicEndpoint) (nid : NodeId) :
    Except String (List RItem) :=
  match ep.discovery with
  | none => Except.error "No discovery service configured"
  | some d =>
    match d.resolve nid with
    | none =>
      Except.error ("No discovery service can resolve node " ++ NodeId.display nid)
    | some items => Except.ok items

/-- Number of calls `create_stream` makes to the provider's `resolve`: one
whenever a provider is configured, zero otherwise. -/
def resolveAttempts (ep : MagicEndpoint) : Nat :=
  match ep.discovery with
  | none => 0
  | some _ => 1

/-- Observable trace of one spawned task body: channel sends, book
insertions, and how many times the provider's `resolve` was invoked. -/
structure TaskTrace where
  sends : List Send
  book : List NodeAddr
  resolveCalls : Nat
deriving DecidableEq

/-- `DiscoveryTask::run` (discovery.rs lines 232-274): obtain the merged
stream; on failure send the error on the first-result channel and return;
otherwise run the main loop with the producer half still held. -/
def DiscoveryTask.run (ep : MagicEndpoint) (nid : NodeId) : TaskTrace :=
  match DiscoveryTask.create_stream ep nid with
  | Except.error e =>
    { sends := [Except.error e], book := [], resolveCalls := resolveAttempts ep }
  | Except.ok items =>
    let out := runLoop nid items true
    { sends := out.sends, book := out.book, resolveCalls := resolveAttempts ep }

/-- `DiscoveryTask::needs_discovery` (discovery.rs lines 213-230). -/
def DiscoveryTask.needs_discovery (ep : MagicEndpoint) (nid : NodeId) : Bool :=
  match ep.connection_info nid with
  | none => true
  | some info =>
    match info.last_received, info.last_alive_relay with
    | none, none => true
    | some elapsed, some elapsed_relay =>
      decide (elapsed > MAX_AGE) && decide (elapsed_relay > MAX_AGE)
    | some elapsed, none => decide (elapsed > MAX_AGE)
    | none, some elapsed => decide (elapsed > MAX_AGE)

/-- `DiscoveryTask::start` (discovery.rs lines 133-143): the `ensure!` on a
configured provider; `Except.ok ()` stands for the spawned task (whose body
is `DiscoveryTask.run`). -/
def DiscoveryTask.start (ep : MagicEndpoint) (_nid : NodeId) : Except String Unit :=
  match ep.discovery with
  | none => Except.error "No discovery services configured"
  | some _ => Except.ok ()

/-- `DiscoveryTask::maybe_start_after_delay` (discovery.rs lines 153-184),
up to spawning: first the predicate (not needed means `Ok(None)`, without
touching the provider), then the `ensure!` on a configured provider;
`Except.ok (some ())` stands for the spawned task. -/
def DiscoveryTask.maybe_start_after_delay (ep : MagicEndpoint) (nid : NodeId)
    (_delay : Option Duration) : Except String (Option Unit) :=
  if !DiscoveryTask.needs_discovery ep nid then
    Except.ok none
  else
    match ep.discovery with
    | none => Except.error "No discovery services configured"
    | some _ => Except.ok (some ())

/-- The async block spawned by `maybe_start_after_delay` (discovery.rs
lines 167-178): with a delay set, sleep and re-evaluate the predicate on the
endpoint state at wake time (`epWake`); if discovery is no longer needed,
send success and return, otherwise (and with no delay) run the task. -/
def DiscoveryTask.task_body (delay : Option Duration) (epWake : MagicEndpoint)
    (nid : NodeId) : TaskTrace :=
  match delay with
  | some _ =>
    if !DiscoveryTask.needs_discovery epWake nid then
      { sends := [Except.ok ()], book := [], resolveCalls := 0 }
    else
      DiscoveryTask.run epWake nid
  | none => DiscoveryTask.run epWake nid

/-- `DiscoveryTask::first_arrived` (discovery.rs lines 187-191): await the
first value on the one-shot channel; a channel that is dropped with no send
surfaces as a recv error. -/
def DiscoveryTask.first_arrived (sends : List Send) : Except String Unit :=
  match sends with
  | [] => Except.error "channel closed"
  | s :: _ => s

/-- Whether the run loop, fed these items, consumes at least one `Ok` item
with non-empty `addr_info` before terminating (the loop stops at the first
`Err` item). -/
def consumedNonEmpty : List RItem → Bool
  | [] => false
  | Except.error _ :: _ => false
  | Except.ok r :: rest =>
    if r.addr_info.is_empty then consumedNonEmpty rest else true

/-- A non-empty address record, as the shared test backend publishes
(`{relay_url: "r1", direct: {}}` would be empty; this one carries a relay URL). -/
def goodInfo : AddrInfo := { relay_url := some "r1", direct_addresses := [] }

/-- A discovery item carrying a non-empty `AddrInfo`. -/
def goodItem : DiscoveryItem :=
  { provenance := "test-disco", last_updated := none, addr_info := goodInfo }

/-- A discovery item carrying an empty `AddrInfo`. -/
def emptyItem : DiscoveryItem :=
  { provenance := "test-disco", last_updated := some 7,
    addr_info := { relay_url := none, direct_addresses := [] } }

/-- A child that resolves to a single good item. -/
def svcGood : Provider := { resolve := fun _ => some [Except.ok goodItem] }

/-- A child whose stream produces an error item. -/
def svcErr : Provider := { resolve := fun _ => some [Except.error "service failed"] }

/-- A child that declines every resolve. -/
def declineAll : Provider := { resolve := fun _ => none }

/-- An endpoint with no discovery provider configured and no telemetry. -/
def epNoDisco : MagicEndpoint :=
  { node_id := 0, discovery := none, connection_info := fun _ => none }

/-- An endpoint whose telemetry reports fresh traffic on both paths. -/
def epFresh : MagicEndpoint :=
  { node_id := 0, discovery := some (ConcurrentDiscovery.toProvider [svcGood]),
    connection_info := fun _ =>
      some { last_received := some 0, last_alive_relay := some 0 } }

/-- An endpoint whose aggregator has no children: the merged stream exists
and is empty. -/
def epEmptyStream : MagicEndpoint :=
  { node_id := 0, discovery := some (ConcurrentDiscovery.toProvider []),
    connection_info := fun _ => none }

/-- An endpoint whose aggregator is {B erroring, A good}: the round-robin
merge delivers the error item first. -/
def epErrThenGood : MagicEndpoint :=
  { node_id := 0, discovery := some (ConcurrentDiscovery.toProvider [svcErr, svcGood]),
    connection_info := fun _ => none }

/-- With the producer half of the first-result channel already consumed, the
run loop sends nothing further. -/
theorem runLoop_sends_false (nid : NodeId) :
    ∀ items : List RItem, (runLoop nid items false).sends = []
  | [] => by simp [runLoop, exitSends]
  | Except.error _ :: _ => by simp [runLoop, exitSends]
  | Except.ok r :: rest => by
    by_cases h : r.addr_info.is_empty
    · simpa [runLoop, h] using runLoop_sends_false nid rest
    · simp [runLoop, h, runLoop_sends_false nid rest]

/-- With the producer half still held, the run loop sends exactly one value:
success iff a non-empty item is consumed before termination, the no-results
error otherwise. -/
theorem runLoop_sends_true (nid : NodeId) :
    ∀ items : List RItem,
      (runLoop nid items true).sends =
        [if consumedNonEmpty items then Except.ok () else Except.error (noResultsMsg nid)]
  | [] => by simp [runLoop, exitSends, consumedNonEmpty]
  | Except.error _ :: _ => by simp [runLoop, exitSends, consumedNonEmpty]
  | Except.ok r :: rest => by
    by_cases h : r.addr_info.is_empty
    · simpa [runLoop, h, consumedNonEmpty] using runLoop_sends_true nid rest
    · simp [runLoop, h, consumedNonEmpty, runLoop_sends_false nid rest]

/-- The publish loop starting at index `i` records the children `i, i+1, …`
in order, each with the published info. -/
theorem publishFrom_eq (info : AddrInfo) :
    ∀ (services : List Provider) (i : Nat),
      publishFrom info i services =
        (List.range' i services.length).map (fun j => { child := j, info := info })
  | [], _ => by simp [publishFrom]
  | _ :: rest, i => by
    simp [publishFrom, publishFrom_eq info rest (i + 1), List.range'_succ]

/-- C1 (counterexample): an aggregator with one child that declines: every
child declines, yet `resolve` does not return `none` — it returns an empty
merged stream. -/
theorem c1_counterexample :
    (∀ s ∈ [declineAll], Provider.resolve s 0 = none) ∧
    ConcurrentDiscovery.resolve [declineAll] 0 ≠ none := by
  constructor
  · intro s hs
    simp only [List.mem_singleton] at hs
    subst hs
    rfl
  · simp [ConcurrentDiscovery.resolve]

/-- C1 (amended): `ConcurrentDiscovery::resolve` never returns "no stream":
it returns `some` merged stream unconditionally; when every child declines,
the returned stream is present but empty. (Whenever at least one child
returns a stream, the merged stream is returned as claimed; the claim's
"returns None if every child declines" direction is false.) -/
theorem c1_resolve_total (services : List Provider) (nid : NodeId) :
    ConcurrentDiscovery.resolve services nid ≠ none ∧
    ((∀ s ∈ services, Provider.resolve s nid = none) →
      ConcurrentDiscovery.resolve services nid = some []) := by
  constructor
  · simp [ConcurrentDiscovery.resolve]
  · intro h
    have hfm : services.filterMap (fun s => s.resolve nid) = [] :=
      List.filterMap_eq_nil_iff.mpr h
    unfold ConcurrentDiscovery.resolve
    rw [hfm]
    rfl

/-- C1 (witness): the amended theorem applied to the all-declining
aggregator. -/
theorem c1_witness :
    (∀ s ∈ [declineAll], Provider.resolve s 0 = none) ∧
    ConcurrentDiscovery.resolve [declineAll] 0 = some [] := by
  have h : ∀ s ∈ [declineAll], Provider.resolve s 0 = none := by
    intro s hs
    simp only [List.mem_singleton] at hs
    subst hs
    rfl
  exact ⟨h, (c1_resolve_total [declineAll] 0).2 h⟩

/-- C2 (counterexample): aggregator {B erroring, A good}; the merge delivers
B's error before A's good item; the run loop breaks on the error and never
consumes A's non-empty item, so `first_arrived` reports the no-results
failure, not success as the claim states. -/
theorem c2_counterexample :
    ConcurrentDiscovery.resolve [svcErr, svcGood] 0 =
      some [Except.error "service failed", Except.ok goodItem] ∧
    goodItem.addr_info.is_empty = false ∧
    DiscoveryTask.first_arrived (DiscoveryTask.run epErrThenGood 0).sends =
      Except.error (noResultsMsg 0) ∧
    DiscoveryTask.first_arrived (DiscoveryTask.run epErrThenGood 0).sends ≠
      Except.ok () := by
  refine ⟨rfl, rfl, rfl, by decide⟩

/-- C2 (amended): an error item on the merged stream terminates the whole
task loop, not just the erroring child's substream: every item merged after
the first error is never consumed, so the run's sends and address-book
insertions are those of the stream truncated at that error. -/
theorem c2_error_stops_loop (nid : NodeId) (e : String) :
    ∀ (pre post : List RItem) (tx : Bool),
      runLoop nid (pre ++ Except.error e :: post) tx =
        runLoop nid (pre ++ [Except.error e]) tx := by
  intro pre
  induction pre with
  | nil => intro post tx; simp [runLoop]
  | cons a rest ih =>
    intro post tx
    cases a with
    | error e2 => simp [runLoop]
    | ok r =>
      by_cases h : r.addr_info.is_empty
      · simp [runLoop, h, ih]
      · simp [runLoop, h, ih]

/-- C3: the needs-discovery decision table: true when the peer is unknown to
telemetry, true when both durations are absent, a strict comparison with
`MAX_AGE` for a single present duration, the conjunction of both
comparisons when both are present, and `MAX_AGE` is exactly 10 seconds. -/
theorem c3_needs_discovery_table (me : NodeId) (disco : Option Provider)
    (nid : NodeId) (d r : Duration) :
    DiscoveryTask.needs_discovery ⟨me, disco, fun _ => none⟩ nid = true ∧
    DiscoveryTask.needs_discovery
      ⟨me, disco, fun _ => some ⟨none, none⟩⟩ nid = true ∧
    DiscoveryTask.needs_discovery
      ⟨me, disco, fun _ => some ⟨some d, none⟩⟩ nid = decide (d > MAX_AGE) ∧
    DiscoveryTask.needs_discovery
      ⟨me, disco, fun _ => some ⟨none, some r⟩⟩ nid = decide (r > MAX_AGE) ∧
    DiscoveryTask.needs_discovery
      ⟨me, disco, fun _ => some ⟨some d, some r⟩⟩ nid =
        (decide (d > MAX_AGE) && decide (r > MAX_AGE)) ∧
    MAX_AGE = Duration.from_secs 10 ∧
    Duration.from_secs 10 = 10 * 1000000000 :=
  ⟨rfl, rfl, rfl, rfl, rfl, rfl, rfl⟩

/-- C4: over any run of the task, the first-result channel receives exactly
one value, and that value is success if and only if the stream was obtained
and at least one non-empty item was consumed before termination. -/
theorem c4_first_result_exactness (ep : MagicEndpoint) (nid : NodeId) :
    (DiscoveryTask.run ep nid).sends.length = 1 ∧
    ((DiscoveryTask.run ep nid).sends = [Except.ok ()] ↔
      ∃ items, DiscoveryTask.create_stream ep nid = Except.ok items ∧
        consumedNonEmpty items = true) := by
  cases hcs : DiscoveryTask.create_stream ep nid with
  | error e =>
    constructor
    · simp [DiscoveryTask.run, hcs]
    · simp [DiscoveryTask.run, hcs]
  | ok items =>
    constructor
    · simp [DiscoveryTask.run, hcs, runLoop_sends_true]
    · rw [show (DiscoveryTask.run ep nid).sends = (runLoop nid items true).sends by
        simp [DiscoveryTask.run, hcs]]
      rw [runLoop_sends_true]
      cases hc : consumedNonEmpty items <;> simp [hcs, hc]

/-- C5: an `Ok` item with empty `addr_info` is transparent: deleting it from
the merged stream changes neither the address-book insertions nor the
first-result channel traffic. -/
theorem c5_empty_item_transparent (nid : NodeId) (r : DiscoveryItem)
    (hr : r.addr_info.is_empty = true) :
    ∀ (pre post : List RItem) (tx : Bool),
      runLoop nid (pre ++ Except.ok r :: post) tx =
        runLoop nid (pre ++ post) tx := by
  intro pre
  induction pre with
  | nil => intro post tx; simp [runLoop, hr]
  | cons a rest ih =>
    intro post tx
    cases a with
    | error e => simp [runLoop]
    | ok r2 =>
      by_cases h2 : r2.addr_info.is_empty
      · simp [runLoop, h2, ih]
      · simp [runLoop, h2, ih]

/-- C5 (witness): a concrete empty item in front of a good one is skipped. -/
theorem c5_witness :
    emptyItem.addr_info.is_empty = true ∧
    runLoop 0 [Except.ok emptyItem, Except.ok goodItem] true =
      runLoop 0 [Except.ok goodItem] true :=
  ⟨rfl, c5_empty_item_transparent 0 emptyItem rfl [] [Except.ok goodItem] true⟩

/-- C6: with no provider configured, `start` always fails with the
configuration error, and `maybe_start_after_delay` returns "no task"
exactly when the predicate says discovery is not needed (the predicate is
checked before the provider check), failing with the configuration error
otherwise. -/
theorem c6_no_provider (ep : MagicEndpoint) (nid : NodeId)
    (delay : Option Duration) (h : ep.discovery = none) :
    DiscoveryTask.start ep nid = Except.error "No discovery services configured" ∧
    (DiscoveryTask.maybe_start_after_delay ep nid delay = Except.ok none ↔
      DiscoveryTask.needs_discovery ep nid = false) ∧
    (DiscoveryTask.needs_discovery ep nid = true →
      DiscoveryTask.maybe_start_after_delay ep nid delay =
        Except.error "No discovery services configured") := by
  refine ⟨?_, ?_, ?_⟩
  · simp [DiscoveryTask.start, h]
  · cases hnd : DiscoveryTask.needs_discovery ep nid <;>
      simp [DiscoveryTask.maybe_start_after_delay, h, hnd]
  · intro hnd
    simp [DiscoveryTask.maybe_start_after_delay, h, hnd]

/-- C6 (witness): the theorem applied to an endpoint with no provider and no
telemetry (so the predicate says discovery is needed). -/
theorem c6_witness :
    epNoDisco.discovery = none ∧
    (DiscoveryTask.start epNoDisco 3 =
        Except.error "No discovery services configured" ∧
      (DiscoveryTask.maybe_start_after_delay epNoDisco 3 none = Except.ok none ↔
        DiscoveryTask.needs_discovery epNoDisco 3 = false) ∧
      (DiscoveryTask.needs_discovery epNoDisco 3 = true →
        DiscoveryTask.maybe_start_after_delay epNoDisco 3 none =
          Except.error "No discovery services configured")) :=
  ⟨rfl, c6_no_provider epNoDisco 3 none rfl⟩

/-- C7: a delayed task that, at wake time, finds discovery no longer needed
resolves the first-result channel with success and exits with no resolve
call and no address-book write. -/
theorem c7_delay_gating (d : Duration) (epWake : MagicEndpoint) (nid : NodeId)
    (h : DiscoveryTask.needs_discovery epWake nid = false) :
    DiscoveryTask.task_body (some d) epWake nid =
      { sends := [Except.ok ()], book := [], resolveCalls := 0 } ∧
    DiscoveryTask.first_arrived
      (DiscoveryTask.task_body (some d) epWake nid).sends = Except.ok () := by
  constructor
  · simp [DiscoveryTask.task_body, h]
  · simp [DiscoveryTask.task_body, h, DiscoveryTask.first_arrived]

/-- C7 (witness): the theorem applied to an endpoint whose telemetry at wake
time reports fresh traffic on both paths. -/
theorem c7_witness :
    DiscoveryTask.needs_discovery epFresh 5 = false ∧
    DiscoveryTask.task_body (some (Duration.from_secs 1)) epFresh 5 =
      { sends := [Except.ok ()], book := [], resolveCalls := 0 } :=
  ⟨rfl, (c7_delay_gating (Duration.from_secs 1) epFresh 5 rfl).1⟩

/-- C8: when the merged stream terminates (stream end or error item) with no
non-empty item consumed, the first-result channel receives the no-results
failure for the node, and `first_arrived` surfaces exactly that failure. -/
theorem c8_no_results_error (ep : MagicEndpoint) (nid : NodeId)
    (items : List RItem)
    (hcs : DiscoveryTask.create_stream ep nid = Except.ok items)
    (hne : consumedNonEmpty items = false) :
    (DiscoveryTask.run ep nid).sends = [Except.error (noResultsMsg nid)] ∧
    DiscoveryTask.first_arrived (DiscoveryTask.run ep nid).sends =
      Except.error (noResultsMsg nid) := by
  have hs : (DiscoveryTask.run ep nid).sends = [Except.error (noResultsMsg nid)] := by
    simp [DiscoveryTask.run, hcs, runLoop_sends_true, hne]
  exact ⟨hs, by rw [hs]; rfl⟩

/-- C8 (witness): the theorem applied to an aggregator with no children,
whose merged stream is present but empty. -/
theorem c8_witness :
    DiscoveryTask.create_stream epEmptyStream 5 = Except.ok [] ∧
    consumedNonEmpty [] = false ∧
    (DiscoveryTask.run epEmptyStream 5).sends = [Except.error (noResultsMsg 5)] ∧
    DiscoveryTask.first_arrived (DiscoveryTask.run epEmptyStream 5).sends =
      Except.error (noResultsMsg 5) :=
  ⟨rfl, rfl, (c8_no_results_error epEmptyStream 5 [] rfl rfl).1,
    (c8_no_results_error epEmptyStream 5 [] rfl rfl).2⟩

/-- C9: one `publish` on an aggregator of N children calls each child's
publish exactly once, in registration order, each with the published info;
the trace exists unconditionally (child failures cannot surface: the
capability's publish returns unit). -/
theorem c9_publish_fanout (services : List Provider) (info : AddrInfo) :
    ConcurrentDiscovery.publish services info =
      (List.range services.length).map (fun j => { child := j, info := info }) ∧
    (ConcurrentDiscovery.publish services info).length = services.length ∧
    ∀ j : Fin services.length,
      ((ConcurrentDiscovery.publish services info).filter
        (fun c => c.child == j.val)).length = 1 := by
  have h1 : ConcurrentDiscovery.publish services info =
      (List.range services.length).map (fun j => { child := j, info := info }) := by
    rw [ConcurrentDiscovery.publish, publishFrom_eq, List.range_eq_range']
  refine ⟨h1, ?_, ?_⟩
  · rw [h1, List.length_map, List.length_range]
  · intro j
    rw [h1, List.filter_map, List.length_map]
    have hcomp : ((fun c : PublishCall => c.child == j.val) ∘
        fun k => ({ child := k, info := info } : PublishCall)) =
          fun k => k == j.val := rfl
    rw [hcomp, ← List.countP_eq_length_filter]
    have hc := List.count_eq_one_of_mem (List.nodup_range services.length)
      (List.mem_range.mpr j.isLt)
    simpa [List.count_eq_countP] using hc

/-- C9 (witness): the fan-out theorem applied to a two-child aggregator,
child 0. -/
theorem c9_witness :
    ((ConcurrentDiscovery.publish [svcGood, svcErr] goodInfo).filter
      (fun c => c.child == (0 : Nat))).length = 1 :=
  (c9_publish_fanout [svcGood, svcErr] goodInfo).2.2 ⟨0, by decide⟩

/-- Two stream items agree on everything the run loop can observe: `Ok`
items with the same `addr_info` (provenance and last_updated free), or
identical `Err` items. -/
def sameVisible : RItem → RItem → Prop
  | Except.ok a, Except.ok b => a.addr_info = b.addr_info
  | Except.error a, Except.error b => a = b
  | _, _ => False

/-- C10: two merged streams that differ only in the provenance and
last_updated fields of their items produce identical address-book
insertions and identical first-result channel traffic. -/
theorem c10_provenance_independence (nid : NodeId)
    (items1 items2 : List RItem)
    (h : List.Forall₂ sameVisible items1 items2) :
    ∀ tx : Bool, runLoop nid items1 tx = runLoop nid items2 tx := by
  induction h with
  | nil => intro tx; rfl
  | @cons a b l1 l2 hab htail ih =>
    intro tx
    cases a with
    | error e1 =>
      cases b with
      | error e2 =>
        have he : e1 = e2 := hab
        subst he
        simp [runLoop]
      | ok r2 => exact (hab : False).elim
    | ok r1 =>
      cases b with
      | error e2 => exact (hab : False).elim
      | ok r2 =>
        have he : r1.addr_info = r2.addr_info := hab
        by_cases hem : r1.addr_info.is_empty
        · have hem2 : r2.addr_info.is_empty = true := by rw [← he]; exact hem
          simp [runLoop, hem, hem2, ih]
        · have hem2 : ¬ r2.addr_info.is_empty = true := by rw [← he]; exact hem
          simp [runLoop, hem, hem2, ih, he]

/-- C10 (witness): two one-item streams whose items differ in provenance and
last_updated but share the `addr_info` produce the same run output. -/
theorem c10_witness :
    List.Forall₂ sameVisible
      [Except.ok { provenance := "A", last_updated := none,
                   addr_info := goodInfo : DiscoveryItem }]
      [Except.ok { provenance := "B", last_updated := some 7,
                   addr_info := goodInfo : DiscoveryItem }] ∧
    runLoop 0
      [Except.ok { provenance := "A", last_updated := none,
                   addr_info := goodInfo : DiscoveryItem }] true =
    runLoop 0
      [Except.ok { provenance := "B", last_updated := some 7,
                   addr_info := goodInfo : DiscoveryItem }] true := by
  have hf : List.Forall₂ sameVisible
      [Except.ok { provenance := "A", last_updated := none,
                   addr_info := goodInfo : DiscoveryItem }]
      [Except.ok { provenance := "B", last_updated := some 7,
                   addr_info := goodInfo : DiscoveryItem }] :=
    List.Forall₂.cons rfl List.Forall₂.nil
  exact ⟨hf, c10_provenance_independence 0 _ _ hf true⟩
